import Mathlib

/-!
Verification of the `pb` CLI entry point (`src/main.go`): the profile
configuration bootstrap, the pre-run chain, the telemetry post-run hooks,
and the process exit path, shallowly embedded as pure Lean functions.
-/

/-- One named remote target, as in `config.Profile` (the `name` is the key in
the enclosing map, so it is not a field here). -/
structure Profile where
  url : String
  username : String
  password : String
deriving DecidableEq, Repr

/-- The persisted configuration, as in `config.Config`: a map from profile
name to `Profile` (embedded as an association list with unique keys, matching
Go map semantics extensionally) and the currently selected default profile. -/
structure Config where
  profiles : List (String × Profile)
  defaultProfile : String
deriving DecidableEq, Repr

/-- Association-list lookup, embedding a Go map read `m[k]` together with its
`ok` bit (`none` means the key is absent). -/
def lookupProfile : List (String × Profile) → String → Option Profile
  | [], _ => none
  | (k₁, v₁) :: ps, k => if k = k₁ then some v₁ else lookupProfile ps k

/-- Association-list insert-or-replace, embedding a Go map write `m[k] = v`. -/
def insertProfile : List (String × Profile) → String → Profile → List (String × Profile)
  | [], k, v => [(k, v)]
  | (k₁, v₁) :: ps, k, v =>
      if k = k₁ then (k₁, v) :: ps else (k₁, v₁) :: insertProfile ps k v

/-- Embeds `defaultInitialProfile` (src/main.go lines 45-51): the well-known
demo endpoint and credentials used when a fresh demo profile is created. -/
def defaultInitialProfile : Profile :=
  { url := "https://demo.parseable.com", username := "admin", password := "admin" }

/-- The configuration written on first run (src/main.go lines 317-320):
exactly one profile named demo, selected as default. -/
def freshConfig : Config :=
  { profiles := [("demo", defaultInitialProfile)], defaultProfile := "demo" }

/-- Embeds the else-branch of the bootstrap in `main` (src/main.go lines
326-339): if a demo profile exists, overwrite its url, username and password
fields in place (note the literal `http://demo.parseable.com`, not the
`https` URL of `defaultInitialProfile`); if absent, insert a fresh demo
profile and set it as the default. -/
def mergeDemo (c : Config) : Config :=
  match lookupProfile c.profiles "demo" with
  | some demoProfile =>
      { c with
          profiles := (insertProfile c.profiles "demo"
            { demoProfile with
                url := "http://demo.parseable.com"
                username := "admin"
                password := "admin" }) }
  | none =>
      { c with
          profiles := (insertProfile c.profiles "demo" defaultInitialProfile)
          defaultProfile := "demo" }

/-- Outcome of `config.ReadConfigFromFile` at process start. `notExist` is the
case `os.IsNotExist(err)`. Modelled from the spec: `ReadConfigFromFile` lives
in `pb/pkg/config`, which is not under src/; per the spec's `Load` contract it
yields a configuration value together with a found/err indication, and the
value accompanying a failure other than absence (permission error, corrupt
file) is unspecified, so `readFailure` carries an arbitrary accompanying
value. -/
inductive ReadResult where
  | notExist
  | readFailure (accompanying : Config)
  | ok (c : Config)
deriving DecidableEq, Repr

/-- What the bootstrap step ends in: either the process exits non-zero before
any command executes (printing `msg`), or it proceeds to command dispatch with
`written` persisted. -/
inductive BootOutcome where
  | exitNonZero (msg : String)
  | proceed (written : Config)
deriving DecidableEq, Repr

/-- Embeds the bootstrap block of `main` (src/main.go lines 316-347). The
branch condition is exactly `os.IsNotExist(err)`: only `notExist` takes the
fresh-create path; every other read outcome, a failure included, falls into
the else-branch and is merged via `mergeDemo`. `writeOk` abstracts whether
`config.WriteConfigToFile` succeeds; on a failed write the process exits
with status 1. -/
def bootstrap (r : ReadResult) (writeOk : Bool) : BootOutcome :=
  match r with
  | ReadResult.notExist =>
      if writeOk then BootOutcome.proceed freshConfig
      else BootOutcome.exitNonZero "failed to write to file"
  | ReadResult.readFailure v =>
      if writeOk then BootOutcome.proceed (mergeDemo v)
      else BootOutcome.exitNonZero "failed to write to existing file"
  | ReadResult.ok c =>
      if writeOk then BootOutcome.proceed (mergeDemo c)
      else BootOutcome.exitNonZero "failed to write to existing file"

/-- How the process terminates after the bootstrap block (src/main.go lines
349-354): `err := cli.Execute(); if err != nil { os.Exit(1) }; wg.Wait()`.
`waitedOnBarrier` records whether `wg.Wait()` (the telemetry completion
barrier) was reached before termination. -/
structure ProcessExit where
  waitedOnBarrier : Bool
  exitCode : Nat
deriving DecidableEq, Repr

/-- Embeds the tail of `main` (src/main.go lines 349-354): on a dispatch
error, `os.Exit(1)` fires before `wg.Wait()` is reached; on success the
process waits on the barrier and exits 0. -/
def mainTail (executeFailed : Bool) : ProcessExit :=
  if executeFailed then { waitedOnBarrier := false, exitCode := 1 }
  else { waitedOnBarrier := true, exitCode := 0 }

/-- Result of the root command body (src/main.go lines 59-65): whether the
version banner was printed, and the error returned, if any. -/
structure RunEOutcome where
  printedVersion : Bool
  err : Option String
deriving DecidableEq, Repr

/-- Embeds `cli.RunE` (src/main.go lines 59-65): with the version flag set it
prints the version and returns nil; otherwise it returns the error
`no command or flag supplied`. -/
def cliRunE (versionFlagSet : Bool) : RunEOutcome :=
  if versionFlagSet then { printedVersion := true, err := none }
  else { printedVersion := false, err := some "no command or flag supplied" }

/-- Steps of the pre-run phase, used to record the order in which the chain
performs them. -/
inductive PreStep where
  | bootstrapStep
  | resolveStep
  | ulidStep
deriving DecidableEq, Repr

/-- Modelled from the spec: `pb.PreRunDefaultProfile` lives in `pb/cmd`, which
is not under src/. Per the spec, profile resolution must run the ConfigStore
bootstrap before attempting resolution, so this hook performs the bootstrap
and then the resolution of the default profile. -/
def preRunDefaultProfileSteps : List PreStep :=
  [PreStep.bootstrapStep, PreStep.resolveStep]

/-- Modelled from the spec: `analytics.CheckAndCreateULID` lives in
`pb/pkg/analytics`, which is not under src/. Per the spec it idempotently
creates the persisted session identity (ULID). -/
def checkAndCreateULIDSteps : List PreStep :=
  [PreStep.ulidStep]

/-- Embeds `combinedPreRun` (src/main.go lines 357-368): it runs
`pb.PreRunDefaultProfile` first and `analytics.CheckAndCreateULID` second,
wrapping either failure in a message and returning it; the second step is not
reached when the first fails. The outcomes of the two (not-under-src/)
sub-steps are parameters (`none` = success, `some e` = failure with message
`e`); the result pairs the hook's returned error with the recorded step
order. -/
def combinedPreRun (profileErr ulidErr : Option String) :
    Option String × List PreStep :=
  match profileErr with
  | some e =>
      (some (String.append "error initializing default profile: " e),
       preRunDefaultProfileSteps)
  | none =>
      match ulidErr with
      | some e =>
          (some (String.append "error while creating ulid: " e),
           preRunDefaultProfileSteps ++ checkAndCreateULIDSteps)
      | none => (none, preRunDefaultProfileSteps ++ checkAndCreateULIDSteps)

/-- Modelled from the spec: the command-tree framework (cobra, an external
collaborator whose source is not part of this repository) aborts the
invocation when the pre-run hook returns an error, so the command body runs
exactly when the hook returned no error. -/
def bodyRuns (preRunErr : Option String) : Bool :=
  preRunErr.isNone

/-- State of the process-wide telemetry coordination: how many background
tasks were registered on the completion barrier (`wg.Add`), and the sink
invocations (category, argument snapshot) those tasks have performed by the
time the barrier wait returns. The sink call itself
(`analytics.PostRunAnalytics`, in `pb/pkg/analytics`, not under src/) is
modelled from the spec as one emission per dispatched task. -/
structure TelemetryState where
  registered : Nat
  sinkCalls : List (String × List String)
deriving DecidableEq, Repr

/-- Embeds the `PersistentPostRun` hook bodies attached to each command in
src/main.go (e.g. lines 66-75 on the root command): when the environment
variable `PB_ANALYTICS` equals `disable` the hook returns immediately
(dispatching nothing); otherwise it registers one task on the barrier
(`wg.Add(1)`) whose body emits one analytics record for the command category
and arguments. `pbAnalytics` is the value of `os.Getenv("PB_ANALYTICS")`
(the empty string when unset). -/
def persistentPostRun (pbAnalytics category : String) (args : List String)
    (s : TelemetryState) : TelemetryState :=
  if pbAnalytics = "disable" then s
  else { registered := s.registered + 1,
         sinkCalls := s.sinkCalls ++ [(category, args)] }

/-- Modelled from the spec: the command-tree framework (cobra, external to
this repository) invokes the command's `PersistentPostRun` hook after the
command body completes; per the spec's lifecycle the post-run phase runs
regardless of the body's outcome, and the hook does not receive the body's
error, so the dispatch cannot depend on it (`bodyErr` is the body's outcome,
unused by the hook). -/
def lifecyclePostRun (pbAnalytics category : String) (args : List String)
    (_bodyErr : Option String) (s : TelemetryState) : TelemetryState :=
  persistentPostRun pbAnalytics category args s

/-- Concrete profile used as the user-created `demo` entry `X` in examples. -/
def profileX : Profile :=
  { url := "https://x.example.com", username := "ux", password := "px" }

/-- Concrete profile used as the user-created `work` entry `Y` in examples. -/
def profileY : Profile :=
  { url := "https://work.example.com", username := "uy", password := "py" }

/-- Concrete existing configuration with a demo entry, a work entry and
`work` selected as default. -/
def cfgDemoWork : Config :=
  { profiles := [("demo", profileX), ("work", profileY)],
    defaultProfile := "work" }

/-- Concrete existing configuration with no demo entry and `work` selected
as default. -/
def cfgWorkOnly : Config :=
  { profiles := [("work", profileY)], defaultProfile := "work" }

theorem lookupProfile_insertProfile_self (ps : List (String × Profile))
    (k : String) (v : Profile) :
    lookupProfile (insertProfile ps k v) k = some v := by
  induction ps with
  | nil => simp [insertProfile, lookupProfile]
  | cons hd tl ih =>
      obtain ⟨k₁, v₁⟩ := hd
      by_cases h : k = k₁
      · simp [insertProfile, h, lookupProfile]
      · simp [insertProfile, h, lookupProfile, ih]

theorem lookupProfile_insertProfile_other (ps : List (String × Profile))
    (k k₀ : String) (v : Profile) (h : k ≠ k₀) :
    lookupProfile (insertProfile ps k₀ v) k = lookupProfile ps k := by
  induction ps with
  | nil => simp [insertProfile, lookupProfile, h]
  | cons hd tl ih =>
      obtain ⟨k₁, v₁⟩ := hd
      by_cases h₁ : k₀ = k₁
      · subst h₁
        simp [insertProfile, lookupProfile, h]
      · by_cases h₂ : k = k₁
        · simp [insertProfile, h₁, lookupProfile, h₂]
        · simp [insertProfile, h₁, lookupProfile, h₂, ih]

/-- Claim C1 (counterexample): bootstrap is not idempotent from an empty
store. The first run writes the demo profile with url
`https://demo.parseable.com` (from `defaultInitialProfile`); the second run
takes the merge path, which overwrites the url with the literal
`http://demo.parseable.com`, so the two runs do not produce identical
configurations. -/
theorem bootstrap_twice_not_identical :
    bootstrap ReadResult.notExist true = BootOutcome.proceed freshConfig ∧
    bootstrap (ReadResult.ok freshConfig) true =
      BootOutcome.proceed (mergeDemo freshConfig) ∧
    mergeDemo freshConfig ≠ freshConfig ∧
    (lookupProfile freshConfig.profiles "demo").map Profile.url =
      some "https://demo.parseable.com" ∧
    (lookupProfile (mergeDemo freshConfig).profiles "demo").map Profile.url =
      some "http://demo.parseable.com" := by decide

/-- Claim C1 (amended): running bootstrap twice from an empty store yields,
after each run, a configuration with exactly one profile named demo and
defaultProfile equal to demo, with the same username and password on both
runs; but the demo url differs between the runs
(`https://demo.parseable.com` after the first, `http://demo.parseable.com`
after the second), so the two configurations are not identical. -/
theorem bootstrap_twice_demo_only :
    freshConfig.profiles = [("demo", defaultInitialProfile)] ∧
    freshConfig.defaultProfile = "demo" ∧
    (mergeDemo freshConfig).profiles =
      [("demo",
        { url := "http://demo.parseable.com",
          username := "admin", password := "admin" })] ∧
    (mergeDemo freshConfig).defaultProfile = "demo" ∧
    (lookupProfile (mergeDemo freshConfig).profiles "demo").map Profile.username =
      (lookupProfile freshConfig.profiles "demo").map Profile.username ∧
    (lookupProfile (mergeDemo freshConfig).profiles "demo").map Profile.password =
      (lookupProfile freshConfig.profiles "demo").map Profile.password := by decide

/-- Claim C2 (code evaluated at the failing input): a read failure whose
cause is not absence of the file is not surfaced and is not fatal. The
bootstrap branch tests only `os.IsNotExist(err)`, so a permission error or a
corrupt file falls into the else-branch: the code merges a demo profile into
the value accompanying the failed read and persists that, silently replacing
the on-disk configuration instead of exiting non-zero. -/
theorem bootstrap_swallows_read_failure :
    bootstrap (ReadResult.readFailure { profiles := [], defaultProfile := "" }) true =
      BootOutcome.proceed
        { profiles := [("demo", defaultInitialProfile)],
          defaultProfile := "demo" } ∧
    (∀ v : Config, bootstrap (ReadResult.readFailure v) true =
      BootOutcome.proceed (mergeDemo v)) :=
  ⟨by decide, fun _ => rfl⟩

/-- Claim C3 (counterexample): when root dispatch returns an error, `main`
calls `os.Exit(1)` before reaching `wg.Wait()`, so the process terminates
without waiting on the telemetry completion barrier. -/
theorem main_error_exit_skips_barrier :
    (mainTail true).waitedOnBarrier = false ∧ (mainTail true).exitCode = 1 := by
  decide

/-- Claim C3 (amended): the process waits on the telemetry completion barrier
before terminating only when root dispatch returned success (and then exits
0); when dispatch returns an error the process exits with code 1 immediately,
without waiting on the barrier. -/
theorem main_barrier_wait_policy :
    mainTail false = { waitedOnBarrier := true, exitCode := 0 } ∧
    mainTail true = { waitedOnBarrier := false, exitCode := 1 } := by decide

/-- Claim C4: for every existing configuration whose profiles map contains a
demo entry, the bootstrap merge updates only the url, username and password
of the demo entry (to the values of the merge path), leaves every other
profile unchanged, leaves the defaultProfile selection unchanged, and
persists the merged result. -/
theorem bootstrap_merge_preserves_profiles (c : Config) (p : Profile)
    (h : lookupProfile c.profiles "demo" = some p) :
    lookupProfile (mergeDemo c).profiles "demo" =
      some { p with
               url := "http://demo.parseable.com"
               username := "admin"
               password := "admin" } ∧
    (∀ k, k ≠ "demo" →
      lookupProfile (mergeDemo c).profiles k = lookupProfile c.profiles k) ∧
    (mergeDemo c).defaultProfile = c.defaultProfile ∧
    bootstrap (ReadResult.ok c) true = BootOutcome.proceed (mergeDemo c) := by
  refine ⟨?_, ?_, ?_, rfl⟩
  · simp [mergeDemo, h, lookupProfile_insertProfile_self]
  · intro k hk
    simp [mergeDemo, h, lookupProfile_insertProfile_other _ _ _ _ hk]
  · simp [mergeDemo, h]

/-- Claim C4 (witness): the merge theorem applied to the concrete
configuration with profiles demo ↦ X and work ↦ Y and default work: the work
entry and the default selection survive unchanged and demo is overwritten. -/
theorem bootstrap_merge_preserves_profiles_witness :
    lookupProfile cfgDemoWork.profiles "demo" = some profileX ∧
    (lookupProfile (mergeDemo cfgDemoWork).profiles "demo" =
      some { profileX with
               url := "http://demo.parseable.com"
               username := "admin"
               password := "admin" } ∧
    (∀ k, k ≠ "demo" →
      lookupProfile (mergeDemo cfgDemoWork).profiles k =
        lookupProfile cfgDemoWork.profiles k) ∧
    (mergeDemo cfgDemoWork).defaultProfile = cfgDemoWork.defaultProfile ∧
    bootstrap (ReadResult.ok cfgDemoWork) true =
      BootOutcome.proceed (mergeDemo cfgDemoWork)) :=
  ⟨by decide, bootstrap_merge_preserves_profiles cfgDemoWork profileX (by decide)⟩

/-- Claim C5 (counterexample): the pre-run chain does not perform its steps
in the order bootstrap, ULID creation, profile resolution. `combinedPreRun`
runs `pb.PreRunDefaultProfile` (bootstrap then resolution) first and
`analytics.CheckAndCreateULID` second, so the ULID step comes after profile
resolution, not before it. -/
theorem combinedPreRun_order_counterexample :
    (combinedPreRun none none).2 ≠
      [PreStep.bootstrapStep, PreStep.ulidStep, PreStep.resolveStep] ∧
    (combinedPreRun none none).2 =
      [PreStep.bootstrapStep, PreStep.resolveStep, PreStep.ulidStep] := by
  decide

/-- Claim C5 (amended): the PreRun phase performs its steps in the order
(1) configuration-store bootstrap, (2) profile resolution, (3) idempotent
session-identity (ULID) creation; any failure of these steps makes the hook
return an error, which aborts the invocation before the command body runs. -/
theorem combinedPreRun_order_and_abort (profileErr ulidErr : Option String) :
    (combinedPreRun none none).2 =
      [PreStep.bootstrapStep, PreStep.resolveStep, PreStep.ulidStep] ∧
    (profileErr.isSome ∨ ulidErr.isSome →
      (combinedPreRun profileErr ulidErr).1.isSome) ∧
    ((combinedPreRun profileErr ulidErr).1.isSome →
      bodyRuns (combinedPreRun profileErr ulidErr).1 = false) := by
  refine ⟨rfl, ?_, ?_⟩
  · intro h
    cases profileErr with
    | some e => simp [combinedPreRun]
    | none =>
        cases ulidErr with
        | some e => simp [combinedPreRun]
        | none => simp at h
  · intro h
    cases hc : (combinedPreRun profileErr ulidErr).1 with
    | some e => simp [bodyRuns, hc]
    | none => rw [hc] at h; simp at h

/-- Claim C5 (witness): the amended theorem at a concrete failing resolution
step: the hook returns an error and the command body does not run. -/
theorem combinedPreRun_order_and_abort_witness :
    (combinedPreRun none none).2 =
      [PreStep.bootstrapStep, PreStep.resolveStep, PreStep.ulidStep] ∧
    (combinedPreRun (some "boom") none).1.isSome ∧
    bodyRuns (combinedPreRun (some "boom") none).1 = false :=
  ⟨(combinedPreRun_order_and_abort (some "boom") none).1,
   (combinedPreRun_order_and_abort (some "boom") none).2.1 (by decide),
   (combinedPreRun_order_and_abort (some "boom") none).2.2
     ((combinedPreRun_order_and_abort (some "boom") none).2.1 (by decide))⟩

/-- Claim C6: unless telemetry is disabled, the post-run phase dispatches
exactly one telemetry task describing the command category and arguments,
and the dispatch is the same whatever the command body's outcome was (the
hook never receives it). -/
theorem postRun_dispatches_one_task (pbAnalytics category : String)
    (args : List String) (bodyErr bodyErr₀ : Option String)
    (s : TelemetryState) (h : pbAnalytics ≠ "disable") :
    lifecyclePostRun pbAnalytics category args bodyErr s =
      lifecyclePostRun pbAnalytics category args bodyErr₀ s ∧
    (lifecyclePostRun pbAnalytics category args bodyErr s).registered =
      s.registered + 1 ∧
    (lifecyclePostRun pbAnalytics category args bodyErr s).sinkCalls =
      s.sinkCalls ++ [(category, args)] := by
  refine ⟨rfl, ?_, ?_⟩ <;> simp [lifecyclePostRun, persistentPostRun, h]

/-- Claim C6 (witness): one dispatch for the root command with a failed body
and with a successful body, from the empty telemetry state, with telemetry
enabled (PB_ANALYTICS unset, read as the empty string). -/
theorem postRun_dispatches_one_task_witness :
    ("" : String) ≠ "disable" ∧
    (lifecyclePostRun "" "cli" ["arg"] (some "failed")
        { registered := 0, sinkCalls := [] } =
      lifecyclePostRun "" "cli" ["arg"] none
        { registered := 0, sinkCalls := [] } ∧
    (lifecyclePostRun "" "cli" ["arg"] (some "failed")
        { registered := 0, sinkCalls := [] }).registered = 0 + 1 ∧
    (lifecyclePostRun "" "cli" ["arg"] (some "failed")
        { registered := 0, sinkCalls := [] }).sinkCalls =
      [] ++ [("cli", ["arg"])]) :=
  ⟨by decide,
   postRun_dispatches_one_task "" "cli" ["arg"] (some "failed") none
     { registered := 0, sinkCalls := [] } (by decide)⟩

/-- Claim C7: when PB_ANALYTICS equals disable, the post-run dispatch is a
no-op: the telemetry state is unchanged, so from the empty state no task is
registered on the barrier and the sink is never invoked; for any other value
of PB_ANALYTICS the dispatch registers one task. -/
theorem telemetry_opt_out (pbAnalytics category : String) (args : List String)
    (s : TelemetryState) (h : pbAnalytics ≠ "disable") :
    persistentPostRun "disable" category args s = s ∧
    (persistentPostRun "disable" category args
        { registered := 0, sinkCalls := [] }).registered = 0 ∧
    (persistentPostRun "disable" category args
        { registered := 0, sinkCalls := [] }).sinkCalls = [] ∧
    (persistentPostRun pbAnalytics category args s).registered =
      s.registered + 1 := by
  refine ⟨?_, ?_, ?_, ?_⟩ <;> simp [persistentPostRun, h]

/-- Claim C7 (witness): the opt-out theorem at a concrete category, argument
list and state, with the enabled case instantiated at the empty (unset)
environment value. -/
theorem telemetry_opt_out_witness :
    ("" : String) ≠ "disable" ∧
    (persistentPostRun "disable" "query" ["q"]
        { registered := 2, sinkCalls := [("cli", [])] } =
      { registered := 2, sinkCalls := [("cli", [])] } ∧
    (persistentPostRun "disable" "query" ["q"]
        { registered := 0, sinkCalls := [] }).registered = 0 ∧
    (persistentPostRun "disable" "query" ["q"]
        { registered := 0, sinkCalls := [] }).sinkCalls = [] ∧
    (persistentPostRun "" "query" ["q"]
        { registered := 2, sinkCalls := [("cli", [])] }).registered = 2 + 1) :=
  ⟨by decide,
   telemetry_opt_out "" "query" ["q"]
     { registered := 2, sinkCalls := [("cli", [])] } (by decide)⟩

/-- Claim C8: for every existing configuration without a demo entry, the
bootstrap merge inserts the fresh demo profile (well-known endpoint and
credentials), sets defaultProfile to demo even if it previously named another
existing profile, leaves every other profile unchanged, and persists the
merged result. -/
theorem bootstrap_inserts_missing_demo (c : Config)
    (h : lookupProfile c.profiles "demo" = none) :
    lookupProfile (mergeDemo c).profiles "demo" = some defaultInitialProfile ∧
    (mergeDemo c).defaultProfile = "demo" ∧
    (∀ k, k ≠ "demo" →
      lookupProfile (mergeDemo c).profiles k = lookupProfile c.profiles k) ∧
    bootstrap (ReadResult.ok c) true = BootOutcome.proceed (mergeDemo c) := by
  refine ⟨?_, ?_, ?_, rfl⟩
  · simp [mergeDemo, h, lookupProfile_insertProfile_self]
  · simp [mergeDemo, h]
  · intro k hk
    simp [mergeDemo, h, lookupProfile_insertProfile_other _ _ _ _ hk]

/-- Claim C8 (witness): the insertion theorem at the concrete configuration
with only a work profile and default work: demo is inserted, the default
moves from work to demo, and the work entry survives. -/
theorem bootstrap_inserts_missing_demo_witness :
    lookupProfile cfgWorkOnly.profiles "demo" = none ∧
    (lookupProfile (mergeDemo cfgWorkOnly).profiles "demo" =
      some defaultInitialProfile ∧
    (mergeDemo cfgWorkOnly).defaultProfile = "demo" ∧
    (∀ k, k ≠ "demo" →
      lookupProfile (mergeDemo cfgWorkOnly).profiles k =
        lookupProfile cfgWorkOnly.profiles k) ∧
    bootstrap (ReadResult.ok cfgWorkOnly) true =
      BootOutcome.proceed (mergeDemo cfgWorkOnly)) :=
  ⟨by decide, bootstrap_inserts_missing_demo cfgWorkOnly (by decide)⟩

/-- Claim C9: the configuration written back by the bootstrap merge always
contains a profile named demo; and when the input's defaultProfile is
non-empty and references an existing profile, the output's defaultProfile is
non-empty and references an existing profile. -/
theorem bootstrap_demo_and_default_invariant (c : Config) :
    (lookupProfile (mergeDemo c).profiles "demo").isSome ∧
    (c.defaultProfile ≠ "" →
      (lookupProfile c.profiles c.defaultProfile).isSome →
      ((mergeDemo c).defaultProfile ≠ "" ∧
       (lookupProfile (mergeDemo c).profiles
          (mergeDemo c).defaultProfile).isSome)) := by
  cases hd : lookupProfile c.profiles "demo" with
  | some p =>
      constructor
      · simp [mergeDemo, hd, lookupProfile_insertProfile_self]
      · intro h1 h2
        constructor
        · simpa [mergeDemo, hd] using h1
        · by_cases hk : c.defaultProfile = "demo"
          · simp [mergeDemo, hd, hk, lookupProfile_insertProfile_self]
          · simp [mergeDemo, hd,
              lookupProfile_insertProfile_other _ _ _ _ hk, h2]
  | none =>
      constructor
      · simp [mergeDemo, hd, lookupProfile_insertProfile_self]
      · intro h1 h2
        constructor
        · simp [mergeDemo, hd]
        · simp [mergeDemo, hd, lookupProfile_insertProfile_self]

/-- Claim C9 (witness): the invariant theorem at the concrete configuration
with only a work profile and default work, with both hypotheses discharged. -/
theorem bootstrap_demo_and_default_invariant_witness :
    (lookupProfile (mergeDemo cfgWorkOnly).profiles "demo").isSome ∧
    (mergeDemo cfgWorkOnly).defaultProfile ≠ "" ∧
    (lookupProfile (mergeDemo cfgWorkOnly).profiles
        (mergeDemo cfgWorkOnly).defaultProfile).isSome :=
  ⟨(bootstrap_demo_and_default_invariant cfgWorkOnly).1,
   ((bootstrap_demo_and_default_invariant cfgWorkOnly).2
      (by decide) (by decide)).1,
   ((bootstrap_demo_and_default_invariant cfgWorkOnly).2
      (by decide) (by decide)).2⟩

/-- Claim C10: invoking the root command with no subcommand and without the
version flag returns the error `no command or flag supplied`, which makes the
process exit non-zero; with the version flag set, it prints the version,
returns success, and the process exits 0. -/
theorem root_no_subcommand_error :
    cliRunE false =
      { printedVersion := false, err := some "no command or flag supplied" } ∧
    (mainTail (cliRunE false).err.isSome).exitCode = 1 ∧
    cliRunE true = { printedVersion := true, err := none } ∧
    (mainTail (cliRunE true).err.isSome).exitCode = 0 := by decide
